import Mathlib

/-!
Verification of the adonix newsletter/registry core.

Shallow embedding of:
* `src/src/services/newsletter/newsletter-router.ts` — the
  `POST /newsletter/subscribe/` handler and its CORS origin gate;
* `src/unnamed/part_000` (the database models module) — the `Group` and
  per-domain collection enums, `generateConfig`, `getModel`, and the fixed
  `Models` registry table.

The MongoDB storage backend is modelled as a list of documents; the single
`findOneAndUpdate` call with `$addToSet` + `upsert: true` is modelled as one
atomic transformation of that state, matching MongoDB's documented semantics
for a single-document atomic update.
-/

namespace Adonix

/-- A persisted newsletter subscription document
(`NewsletterSubscription` from `newsletter-db.ts`, as used by the router:
keyed by `newsletterId`, holding an array of subscriber emails). -/
structure NewsletterSubscription where
  newsletterId : String
  subscribers : List String
  deriving Repr, DecidableEq

/-- The whole newsletter collection: the Mongo collection state, a sequence
of documents in insertion order. -/
abbrev NewsletterDb := List NewsletterSubscription

/-- MongoDB `$addToSet`: append `e` to the array only if not already
present (set semantics; Mongo appends at the end). -/
def addToSet (xs : List String) (e : String) : List String :=
  if e ∈ xs then xs else xs ++ [e]

/-- The single storage call of the subscribe handler:
`Models.NewsletterSubscription.findOneAndUpdate({ newsletterId: listName },
{ $addToSet: { subscribers: emailAddress } }, { upsert: true })`.
Finds the first document whose `newsletterId` equals `listName` and adds
`emailAddress` to its subscriber set; if no document matches, inserts a new
document `{ newsletterId: listName, subscribers: [emailAddress] }`.
One atomic single-document operation. -/
def findOneAndUpdateAddToSet : NewsletterDb → String → String → NewsletterDb
  | [], listName, emailAddress => [⟨listName, [emailAddress]⟩]
  | d :: ds, listName, emailAddress =>
      if d.newsletterId = listName then
        { d with subscribers := addToSet d.subscribers emailAddress } :: ds
      else
        d :: findOneAndUpdateAddToSet ds listName emailAddress

/-- The request body as read by the handler:
`request.body as SubscribeRequest`. The handler reads only `listName` and
`emailAddress`; any other body fields are carried opaquely and never
inspected. A field is `none` when absent from the JSON body. -/
structure SubscribeRequest where
  listName : Option String
  emailAddress : Option String
  otherFields : List (String × String)
  deriving Repr, DecidableEq

/-- JavaScript truthiness of `string | undefined`: `!x` is true exactly for
`undefined` and the empty string. -/
def jsTruthy : Option String → Bool
  | none => false
  | some s => s ≠ ""

/-- The handler's possible observable responses:
HTTP 400 via `next(new RouterError(StatusCode.ClientErrorBadRequest,
"InvalidParams"))`, or HTTP 200 with `{ status: "Success" }`. -/
inductive SubscribeResponse where
  | clientError (code : Nat) (message : String)
  | success (code : Nat) (status : String)
  deriving Repr, DecidableEq

/-- The `POST /subscribe/` route handler body: validates that `listName`
and `emailAddress` are both present and non-empty (JS truthiness check
`!listName || !emailAddress`); on failure returns 400 `InvalidParams`
without touching storage; otherwise performs the atomic
`findOneAndUpdate` upsert and returns 200 `{ status: "Success" }`. -/
def subscribe (db : NewsletterDb) (request : SubscribeRequest) :
    SubscribeResponse × NewsletterDb :=
  match request.listName, request.emailAddress with
  | some listName, some emailAddress =>
      if listName = "" ∨ emailAddress = "" then
        (.clientError 400 "InvalidParams", db)
      else
        (.success 200 "Success", findOneAndUpdateAddToSet db listName emailAddress)
  | _, _ => (.clientError 400 "InvalidParams", db)

/-- Subscriber set of the list named `listName` in state `db`
(the first matching document's array; `[]` when the list is absent). -/
def subscribersOf (db : NewsletterDb) (listName : String) : List String :=
  match db.find? (fun d => d.newsletterId = listName) with
  | some d => d.subscribers
  | none => []

/-! ### CORS origin gate

From the router: the compiled `allowedOrigins` regexes are abstracted as
boolean predicates on origin strings (the two configuration pattern strings
`Config.NEWSLETTER_CORS.PROD_REGEX` / `DEPLOY_REGEX` live outside the
provided sources, so the gate is parametric in the rule set). -/

/-- Modelled from the spec: `regexPasses` from `newsletter-lib.ts`, which is
imported by the router but whose source file is not among the provided
sources. Per the spec, the origin is tested against every rule in the rule
set in order, and a match with any rule passes. -/
def regexPasses (target : String) (patterns : List (String → Bool)) : Bool :=
  patterns.any (fun pattern => pattern target)

/-- The `corsOptions.origin` decision function from the router:
`if (!origin || regexPasses(origin, allowedOrigins)) callback(null, true)
else callback(new Error("Not allowed by CORS"))`. Returns `true` when the
request is allowed. `origin` is `none` when the request carries no `Origin`
header; JS falsiness (`!origin`) also treats the empty string as absent. -/
def corsOriginAllows (allowedOrigins : List (String → Bool)) :
    Option String → Bool
  | none => true
  | some origin => if origin = "" then true else regexPasses origin allowedOrigins

/-- Observable outcome of a request to the gated endpoint: either the CORS
middleware rejects before the route handler runs, or the handler's own
response. -/
inductive GatedResponse where
  | corsRejected (message : String)
  | handled (response : SubscribeResponse)
  deriving Repr, DecidableEq

/-- The subscription endpoint as seen from outside:
`newsletterRouter.use(cors(corsOptions))` runs the origin gate first; only
when it allows does the `POST /subscribe/` handler run (and possibly touch
storage). -/
def gatedSubscribe (allowedOrigins : List (String → Bool)) (db : NewsletterDb)
    (origin : Option String) (request : SubscribeRequest) :
    GatedResponse × NewsletterDb :=
  if corsOriginAllows allowedOrigins origin then
    let r := subscribe db request
    (.handled r.1, r.2)
  else
    (.corsRejected "Not allowed by CORS", db)

/-! ### Domain model registry (`models.ts`, provided as `src/unnamed/part_000`) -/

/-- The `Group` enum: groups for collections. -/
inductive Group where
  | AUTH | USER | EVENT | ADMISSION | ATTENDEE | NEWSLETTER | REGISTRATION | SHOP | STAFF
  deriving Repr, DecidableEq

/-- The string value of each `Group` enum member. -/
def Group.tag : Group → String
  | .AUTH => "auth"
  | .USER => "user"
  | .EVENT => "event"
  | .ADMISSION => "admission"
  | .ATTENDEE => "attendee"
  | .NEWSLETTER => "newsletter"
  | .REGISTRATION => "registration"
  | .SHOP => "shop"
  | .STAFF => "staff"

/-! ### `enum AttendeeCollection` member values. -/
namespace AttendeeCollection

def METADATA : String := "metadata"

def PROFILE : String := "profile"

def FOLLOWING : String := "following"

end AttendeeCollection

/-! ### `enum AuthCollection` member values. -/
namespace AuthCollection

def INFO : String := "info"

end AuthCollection

/-! ### `enum AdmissionCollection` member values. -/
namespace AdmissionCollection

def DECISION : String := "decision"

end AdmissionCollection

/-! ### `enum EventCollection` member values. -/
namespace EventCollection

def METADATA : String := "metadata"

def ATTENDANCE : String := "attendance"

def EVENTS : String := "events"

def FOLLOWERS : String := "followers"

end EventCollection

/-! ### `enum NewsletterCollection` member values. -/
namespace NewsletterCollection

def SUBSCRIPTIONS : String := "subscriptions"

end NewsletterCollection

/-! ### `enum RegistrationCollection` member values. -/
namespace RegistrationCollection

def APPLICATIONS : String := "applications"

end RegistrationCollection

/-! ### `enum ShopCollection` member values. -/
namespace ShopCollection

def ITEMS : String := "items"

end ShopCollection

/-! ### `enum UserCollection` member values. -/
namespace UserCollection

def INFO : String := "users"

def ATTENDANCE : String := "attendance"

end UserCollection

/-! ### `enum StaffCollection` member values. -/
namespace StaffCollection

def SHIFT : String := "shift"

end StaffCollection

/-- `IModelOptions.schemaOptions` as produced by `generateConfig`: the
collection name together with the `versionKey` switch. -/
structure IModelOptions where
  collection : String
  versionKey : Bool
  deriving Repr, DecidableEq

/-- `generateConfig(collection)`:
`{ schemaOptions: { collection: collection, versionKey: false } }`. -/
def generateConfig (collection : String) : IModelOptions :=
  { collection := collection, versionKey := false }

/-- A typed model handle as returned by `getModelForClass`: bound to one
storage collection identifier with the options it was created with. -/
structure ModelHandle where
  collectionId : String
  options : IModelOptions
  deriving Repr, DecidableEq

/-- The process-wide handle cache. -/
abbrev HandleCache := List ModelHandle

/-- Modelled from the spec: the caching behaviour of `getModelForClass`
(from the `@typegoose/typegoose` dependency; its implementation is not part
of this repository). Per the spec, if a handle for the identifier already
exists it is returned unchanged (idempotent registration); otherwise the
backing collection is initialized from the supplied options and a new
handle is returned. -/
def getModelForClass (cache : HandleCache) (config : IModelOptions) :
    ModelHandle × HandleCache :=
  match cache.find? (fun h => h.collectionId = config.collection) with
  | some h => (h, cache)
  | none =>
      let h : ModelHandle := { collectionId := config.collection, options := config }
      (h, cache ++ [h])

/-- `getModel(of, group, collection)`:
`getModelForClass(of, generateConfig(`group_collection`))` — the storage
collection identifier is the group tag and the collection tag joined by
`"_"`. -/
def getModel (cache : HandleCache) (group : Group) (collection : String) :
    ModelHandle × HandleCache :=
  getModelForClass cache (generateConfig (group.tag ++ "_" ++ collection))

/-- One row of the fixed `Models` registry table: the (group, collection)
pair passed to `getModel`. -/
structure ModelRegistration where
  group : Group
  collection : String
  deriving Repr, DecidableEq

/-- The fixed registry table from `class Models`, in declaration order:
every `getModel(…, group, collection)` call. -/
def modelsTable : List ModelRegistration :=
  [ ⟨Group.ATTENDEE, AttendeeCollection.METADATA⟩,
    ⟨Group.ATTENDEE, AttendeeCollection.PROFILE⟩,
    ⟨Group.ATTENDEE, AttendeeCollection.FOLLOWING⟩,
    ⟨Group.AUTH, AuthCollection.INFO⟩,
    ⟨Group.ADMISSION, AdmissionCollection.DECISION⟩,
    ⟨Group.EVENT, EventCollection.EVENTS⟩,
    ⟨Group.EVENT, EventCollection.ATTENDANCE⟩,
    ⟨Group.EVENT, EventCollection.FOLLOWERS⟩,
    ⟨Group.NEWSLETTER, NewsletterCollection.SUBSCRIPTIONS⟩,
    ⟨Group.REGISTRATION, RegistrationCollection.APPLICATIONS⟩,
    ⟨Group.SHOP, ShopCollection.ITEMS⟩,
    ⟨Group.USER, UserCollection.INFO⟩,
    ⟨Group.USER, UserCollection.ATTENDANCE⟩,
    ⟨Group.STAFF, StaffCollection.SHIFT⟩ ]

/-- The storage collection identifier a registration row resolves to,
exactly as assembled inside `getModel`. -/
def storageId (m : ModelRegistration) : String :=
  m.group.tag ++ "_" ++ m.collection

/-! ## Helper lemmas -/

lemma mem_addToSet_self (xs : List String) (e : String) : e ∈ addToSet xs e := by
  by_cases h : e ∈ xs <;> simp [addToSet, h]

lemma subset_addToSet (xs : List String) (e : String) : xs ⊆ addToSet xs e := by
  by_cases h : e ∈ xs <;> simp [addToSet, h]

lemma addToSet_idem (xs : List String) (e : String) :
    addToSet (addToSet xs e) e = addToSet xs e := by
  by_cases h : e ∈ xs <;> simp [addToSet, h]

lemma subscribersOf_cons (d : NewsletterSubscription) (ds : NewsletterDb) (l : String) :
    subscribersOf (d :: ds) l =
      if d.newsletterId = l then d.subscribers else subscribersOf ds l := by
  by_cases h : d.newsletterId = l <;> simp [subscribersOf, List.find?_cons, h]

/-- Effect of one atomic upsert on the subscriber set of any list. -/
lemma subscribersOf_update (db : NewsletterDb) (l e l' : String) :
    subscribersOf (findOneAndUpdateAddToSet db l e) l' =
      if l' = l then addToSet (subscribersOf db l) e else subscribersOf db l' := by
  induction db with
  | nil =>
      by_cases h : l' = l <;>
        simp [findOneAndUpdateAddToSet, subscribersOf, List.find?_cons, h, addToSet,
          fun hne : ¬ l' = l => (Ne.symm hne : ¬ l = l')]
  | cons d ds ih =>
      by_cases hd : d.newsletterId = l
      · by_cases h : l' = l
        · subst h
          simp [findOneAndUpdateAddToSet, hd, subscribersOf_cons]
        · have hd' : d.newsletterId ≠ l' := fun hc => h (hc ▸ hd.symm ▸ rfl)
          have h2 : ¬ l = l' := fun hc => h hc.symm
          simp [findOneAndUpdateAddToSet, hd, subscribersOf_cons, h, hd', h2]
      · by_cases h : l' = l
        · subst h
          simp [findOneAndUpdateAddToSet, hd, subscribersOf_cons, ih,
            fun hc : d.newsletterId = l' => hd hc]
        · by_cases hd' : d.newsletterId = l'
          · simp [findOneAndUpdateAddToSet, hd, subscribersOf_cons, hd', ih, h]
          · simp [findOneAndUpdateAddToSet, hd, subscribersOf_cons, hd', ih, h]

/-- When no document matches, the upsert appends exactly one fresh
document at the end. -/
lemma findOneAndUpdate_eq_append (db : NewsletterDb) (l e : String)
    (h : ∀ d ∈ db, d.newsletterId ≠ l) :
    findOneAndUpdateAddToSet db l e = db ++ [⟨l, [e]⟩] := by
  induction db with
  | nil => rfl
  | cons d ds ih =>
      have hd : d.newsletterId ≠ l := h d (List.mem_cons_self d ds)
      simp [findOneAndUpdateAddToSet, hd]
      exact ih (fun x hx => h x (List.mem_cons_of_mem d hx))

/-- The upsert never deletes a document and never removes a subscriber:
every document of the old state has a successor with the same key and a
superset subscriber array. -/
lemma findOneAndUpdate_preserves (db : NewsletterDb) (l e : String)
    (d : NewsletterSubscription) (hd : d ∈ db) :
    ∃ d' ∈ findOneAndUpdateAddToSet db l e,
      d'.newsletterId = d.newsletterId ∧ d.subscribers ⊆ d'.subscribers := by
  induction db with
  | nil => cases hd
  | cons a ds ih =>
      rcases List.mem_cons.mp hd with h | h
      · subst h
        by_cases ha : d.newsletterId = l
        · refine ⟨{ d with subscribers := addToSet d.subscribers e }, ?_, rfl, ?_⟩
          · simp [findOneAndUpdateAddToSet, ha]
          · exact subset_addToSet d.subscribers e
        · exact ⟨d, by simp [findOneAndUpdateAddToSet, ha], rfl, List.Subset.refl _⟩
      · by_cases ha : a.newsletterId = l
        · exact ⟨d, by simp [findOneAndUpdateAddToSet, ha, h], rfl, List.Subset.refl _⟩
        · rcases ih h with ⟨d', hd', hid, hsub⟩
          exact ⟨d', by simp [findOneAndUpdateAddToSet, ha, hd'], hid, hsub⟩

/-- A valid request is always answered 200 Success, whatever the state. -/
lemma subscribe_fst_of_valid (db : NewsletterDb) (request : SubscribeRequest)
    (l e : String) (hl : request.listName = some l)
    (he : request.emailAddress = some e) (hl' : l ≠ "") (he' : e ≠ "") :
    (subscribe db request).1 = .success 200 "Success" := by
  rcases request with ⟨listName, emailAddress, other⟩
  simp at hl he
  subst hl; subst he
  simp [subscribe, hl', he']

/-! ## Claim theorems -/

/-- Claim C1: for every valid pair (listName, emailAddress) with both
fields non-empty, calling subscribe twice with the same pair leaves the
list's subscriber set unchanged in size after the second call — the add
uses set semantics, so the duplicate add is a no-op. -/
theorem subscribe_twice_same_pair_size (db : NewsletterDb) (l e : String)
    (other : List (String × String)) (hl : l ≠ "") (he : e ≠ "") :
    (subscribersOf (subscribe (subscribe db ⟨some l, some e, other⟩).2
        ⟨some l, some e, other⟩).2 l).length
      = (subscribersOf (subscribe db ⟨some l, some e, other⟩).2 l).length := by
  simp [subscribe, hl, he, subscribersOf_update, addToSet_idem]

/-- Witness for C1 at the spec's own example pair, starting from the empty
collection. -/
theorem subscribe_twice_same_pair_size_witness :
    "testingList" ≠ "" ∧ "a@hackillinois.org" ≠ "" ∧
    (subscribersOf (subscribe
        (subscribe [] ⟨some "testingList", some "a@hackillinois.org", []⟩).2
        ⟨some "testingList", some "a@hackillinois.org", []⟩).2 "testingList").length
      = (subscribersOf
          (subscribe [] ⟨some "testingList", some "a@hackillinois.org", []⟩).2
          "testingList").length :=
  ⟨by decide, by decide,
    subscribe_twice_same_pair_size [] "testingList" "a@hackillinois.org" []
      (by decide) (by decide)⟩

/-- Claim C2: whenever listName or emailAddress is missing or empty, the
handler answers 400 InvalidParams and the storage state is untouched (the
validation check runs before the storage call). -/
theorem subscribe_invalid_params (db : NewsletterDb) (request : SubscribeRequest)
    (h : jsTruthy request.listName = false ∨ jsTruthy request.emailAddress = false) :
    subscribe db request = (.clientError 400 "InvalidParams", db) := by
  rcases request with ⟨listName, emailAddress, other⟩
  rcases listName with _ | l <;> rcases emailAddress with _ | e <;>
    simp [subscribe, jsTruthy] at h ⊢
  · rcases h with h | h <;> simp [h]

/-- Witness for C2: an empty emailAddress is rejected with no mutation. -/
theorem subscribe_invalid_params_witness :
    (jsTruthy (some "testingList") = false ∨ jsTruthy (some "") = false) ∧
    subscribe [] ⟨some "testingList", some "", []⟩
      = (.clientError 400 "InvalidParams", []) :=
  ⟨Or.inr (by decide),
    subscribe_invalid_params [] ⟨some "testingList", some "", []⟩ (Or.inr (by decide))⟩

/-- Claim C5: subscribing a valid email to a previously-unknown listName
creates exactly one new list document, keyed by the list name and holding
exactly the one subscriber: the new state is the old state with exactly
that one document appended. -/
theorem subscribe_creates_singleton_list (db : NewsletterDb) (l e : String)
    (other : List (String × String)) (hl : l ≠ "") (he : e ≠ "")
    (habsent : ∀ d ∈ db, d.newsletterId ≠ l) :
    subscribe db ⟨some l, some e, other⟩
      = (.success 200 "Success", db ++ [⟨l, [e]⟩]) := by
  simp [subscribe, hl, he, findOneAndUpdate_eq_append db l e habsent]

/-- Witness for C5 on the empty collection. -/
theorem subscribe_creates_singleton_list_witness :
    "testingList" ≠ "" ∧ "a@hackillinois.org" ≠ "" ∧
    subscribe [] ⟨some "testingList", some "a@hackillinois.org", []⟩
      = (.success 200 "Success", [⟨"testingList", ["a@hackillinois.org"]⟩]) :=
  ⟨by decide, by decide,
    subscribe_creates_singleton_list [] "testingList" "a@hackillinois.org" []
      (by decide) (by decide) (by simp)⟩

/-- Claim C7: every valid request (both fields present and non-empty)
whose storage operation succeeds — the embedded atomic upsert always
succeeds — is answered with HTTP 200 and body status Success. -/
theorem subscribe_success_response (db : NewsletterDb) (request : SubscribeRequest)
    (l e : String) (hl : request.listName = some l)
    (he : request.emailAddress = some e) (hl' : l ≠ "") (he' : e ≠ "") :
    (subscribe db request).1 = .success 200 "Success" :=
  subscribe_fst_of_valid db request l e hl he hl' he'

/-- Witness for C7. -/
theorem subscribe_success_response_witness :
    (⟨some "testingList", some "a@hackillinois.org", []⟩ :
        SubscribeRequest).listName = some "testingList" ∧
    (subscribe [] ⟨some "testingList", some "a@hackillinois.org", []⟩).1
      = .success 200 "Success" :=
  ⟨rfl,
    subscribe_success_response [] ⟨some "testingList", some "a@hackillinois.org", []⟩
      "testingList" "a@hackillinois.org" rfl rfl (by decide) (by decide)⟩

/-- Claim C8: no step of the subscription core removes a list or removes a
subscriber. The core's only state-changing operation is the subscribe
handler; for every request and every state, each existing document has a
document in the successor state with the same key and a superset
subscriber set. -/
theorem subscribe_never_removes (db : NewsletterDb) (request : SubscribeRequest)
    (d : NewsletterSubscription) (hd : d ∈ db) :
    ∃ d' ∈ (subscribe db request).2,
      d'.newsletterId = d.newsletterId ∧ d.subscribers ⊆ d'.subscribers := by
  rcases request with ⟨listName, emailAddress, other⟩
  rcases listName with _ | l <;> rcases emailAddress with _ | e
  · exact ⟨d, by simpa [subscribe] using hd, rfl, List.Subset.refl _⟩
  · exact ⟨d, by simpa [subscribe] using hd, rfl, List.Subset.refl _⟩
  · exact ⟨d, by simpa [subscribe] using hd, rfl, List.Subset.refl _⟩
  · by_cases hle : l = "" ∨ e = ""
    · exact ⟨d, by simpa [subscribe, hle] using hd, rfl, List.Subset.refl _⟩
    · have := findOneAndUpdate_preserves db l e d hd
      simpa [subscribe, hle] using this

/-- Witness for C8: a pre-existing list with one subscriber survives a
subscribe for another list. -/
theorem subscribe_never_removes_witness :
    (⟨"oldList", ["a@hackillinois.org"]⟩ : NewsletterSubscription)
        ∈ [(⟨"oldList", ["a@hackillinois.org"]⟩ : NewsletterSubscription)] ∧
    ∃ d' ∈ (subscribe [⟨"oldList", ["a@hackillinois.org"]⟩]
        ⟨some "testingList", some "b@hackillinois.org", []⟩).2,
      d'.newsletterId = "oldList" ∧ ["a@hackillinois.org"] ⊆ d'.subscribers :=
  ⟨List.mem_cons_self _ _,
    subscribe_never_removes [⟨"oldList", ["a@hackillinois.org"]⟩]
      ⟨some "testingList", some "b@hackillinois.org", []⟩
      ⟨"oldList", ["a@hackillinois.org"]⟩ (List.mem_cons_self _ _)⟩

/-- Claim C10: the observable response of a valid subscribe depends only
on the (listName, emailAddress) pair: two valid requests agreeing on the
pair get the identical 200 Success response, whatever their other body
fields and whatever the prior storage state (list existing or not, email
already subscribed or not). -/
theorem subscribe_response_uniform (db1 db2 : NewsletterDb)
    (req1 req2 : SubscribeRequest) (l e : String)
    (h1l : req1.listName = some l) (h1e : req1.emailAddress = some e)
    (h2l : req2.listName = some l) (h2e : req2.emailAddress = some e)
    (hl : l ≠ "") (he : e ≠ "") :
    (subscribe db1 req1).1 = (subscribe db2 req2).1 ∧
    (subscribe db1 req1).1 = .success 200 "Success" := by
  have e1 := subscribe_fst_of_valid db1 req1 l e h1l h1e hl he
  have e2 := subscribe_fst_of_valid db2 req2 l e h2l h2e hl he
  exact ⟨e1.trans e2.symm, e1⟩

/-- Witness for C10: fresh list versus already-subscribed list, and
different extra body fields, give the same observable response. -/
theorem subscribe_response_uniform_witness :
    (subscribe [] ⟨some "testingList", some "a@hackillinois.org", []⟩).1
      = (subscribe [⟨"testingList", ["a@hackillinois.org"]⟩]
          ⟨some "testingList", some "a@hackillinois.org", [("extra", "field")]⟩).1 ∧
    (subscribe [] ⟨some "testingList", some "a@hackillinois.org", []⟩).1
      = .success 200 "Success" :=
  subscribe_response_uniform [] [⟨"testingList", ["a@hackillinois.org"]⟩]
    ⟨some "testingList", some "a@hackillinois.org", []⟩
    ⟨some "testingList", some "a@hackillinois.org", [("extra", "field")]⟩
    "testingList" "a@hackillinois.org" rfl rfl rfl rfl (by decide) (by decide)

/-- Claim C3: two concurrent subscribe calls for the same list with
distinct valid emails both succeed and the final subscriber set contains
both emails, with no lost update, whatever the interleaving. Each call
performs exactly one storage access — the single atomic findOneAndUpdate
upsert — so the possible interleavings are exactly the two sequential
orders of the two atomic operations; the theorem settles both. -/
theorem concurrent_subscribe_no_lost_update (db : NewsletterDb) (l e1 e2 : String)
    (o1 o2 : List (String × String)) (hl : l ≠ "") (h1 : e1 ≠ "") (h2 : e2 ≠ "")
    (hne : e1 ≠ e2) :
    ((subscribe db ⟨some l, some e1, o1⟩).1 = .success 200 "Success" ∧
     (subscribe (subscribe db ⟨some l, some e1, o1⟩).2 ⟨some l, some e2, o2⟩).1
        = .success 200 "Success") ∧
    (e1 ∈ subscribersOf
        (subscribe (subscribe db ⟨some l, some e1, o1⟩).2 ⟨some l, some e2, o2⟩).2 l ∧
     e2 ∈ subscribersOf
        (subscribe (subscribe db ⟨some l, some e1, o1⟩).2 ⟨some l, some e2, o2⟩).2 l) ∧
    (e1 ∈ subscribersOf
        (subscribe (subscribe db ⟨some l, some e2, o2⟩).2 ⟨some l, some e1, o1⟩).2 l ∧
     e2 ∈ subscribersOf
        (subscribe (subscribe db ⟨some l, some e2, o2⟩).2 ⟨some l, some e1, o1⟩).2 l) := by
  have mem_later : ∀ (S : List String) (a b : String),
      a ∈ addToSet (addToSet S a) b :=
    fun S a b => subset_addToSet (addToSet S a) b (mem_addToSet_self S a)
  refine ⟨⟨?_, ?_⟩, ⟨?_, ?_⟩, ⟨?_, ?_⟩⟩ <;>
    simp [subscribe, hl, h1, h2, subscribersOf_update]
  · exact mem_later (subscribersOf db l) e1 e2
  · exact mem_addToSet_self _ e2
  · exact mem_addToSet_self _ e1
  · exact mem_later (subscribersOf db l) e2 e1

/-- Witness for C3: both orders of adding two distinct concrete emails to
the same fresh list leave both emails subscribed. -/
theorem concurrent_subscribe_no_lost_update_witness :
    ("a@hackillinois.org" ∈ subscribersOf
        (subscribe (subscribe [] ⟨some "testingList", some "a@hackillinois.org", []⟩).2
          ⟨some "testingList", some "b@hackillinois.org", []⟩).2 "testingList" ∧
     "b@hackillinois.org" ∈ subscribersOf
        (subscribe (subscribe [] ⟨some "testingList", some "a@hackillinois.org", []⟩).2
          ⟨some "testingList", some "b@hackillinois.org", []⟩).2 "testingList") ∧
    ("a@hackillinois.org" ∈ subscribersOf
        (subscribe (subscribe [] ⟨some "testingList", some "b@hackillinois.org", []⟩).2
          ⟨some "testingList", some "a@hackillinois.org", []⟩).2 "testingList" ∧
     "b@hackillinois.org" ∈ subscribersOf
        (subscribe (subscribe [] ⟨some "testingList", some "b@hackillinois.org", []⟩).2
          ⟨some "testingList", some "a@hackillinois.org", []⟩).2 "testingList") :=
  ⟨(concurrent_subscribe_no_lost_update [] "testingList" "a@hackillinois.org"
      "b@hackillinois.org" [] [] (by decide) (by decide) (by decide) (by decide)).2.1,
   (concurrent_subscribe_no_lost_update [] "testingList" "a@hackillinois.org"
      "b@hackillinois.org" [] [] (by decide) (by decide) (by decide) (by decide)).2.2⟩

/-- Claim C4: the storage collection identifiers derived from the fixed
registry table are pairwise distinct — no two registered (group,
collection) pairs produce the same identifier string. -/
theorem modelsTable_storageIds_distinct : (modelsTable.map storageId).Nodup := by
  decide

/-- Counterexample to claim C6 as stated: an Origin header that is present
but equal to the empty string matches no rule of a rule set containing the
production and deployment patterns, yet the request is NOT rejected — the
falsiness test treats an empty origin like an absent one, so the route
handler runs (and here even mutates storage). -/
theorem cors_empty_origin_counterexample :
    regexPasses ""
        [fun s => s == "https://hackillinois.org",
         fun s => s == "https://deploy.hackillinois.org"] = false ∧
    gatedSubscribe
        [fun s => s == "https://hackillinois.org",
         fun s => s == "https://deploy.hackillinois.org"]
        [] (some "") ⟨some "testingList", some "a@hackillinois.org", []⟩
      = (.handled (.success 200 "Success"),
         [⟨"testingList", ["a@hackillinois.org"]⟩]) := by
  constructor <;> rfl

/-- Claim C6 amended: a request with no Origin header, or with an empty
Origin header, is allowed (the handler runs); a present non-empty origin
matching at least one rule is allowed; a present non-empty origin matching
no rule is rejected before the route handler runs, with no storage
access. -/
theorem cors_gate_policy (rules : List (String → Bool)) (db : NewsletterDb)
    (request : SubscribeRequest) (o : String) :
    (gatedSubscribe rules db none request
        = (.handled (subscribe db request).1, (subscribe db request).2)) ∧
    (gatedSubscribe rules db (some "") request
        = (.handled (subscribe db request).1, (subscribe db request).2)) ∧
    (regexPasses o rules = true →
      gatedSubscribe rules db (some o) request
        = (.handled (subscribe db request).1, (subscribe db request).2)) ∧
    (o ≠ "" → regexPasses o rules = false →
      gatedSubscribe rules db (some o) request
        = (.corsRejected "Not allowed by CORS", db)) := by
  refine ⟨rfl, rfl, ?_, ?_⟩
  · intro hpass
    by_cases ho : o = "" <;>
      simp [gatedSubscribe, corsOriginAllows, ho, hpass]
  · intro ho hfail
    simp [gatedSubscribe, corsOriginAllows, ho, hfail]

/-- Witness for amended C6, mirroring the spec's examples: the production
origin is allowed, an unrelated origin is rejected before the handler. -/
theorem cors_gate_policy_witness :
    (regexPasses "https://hackillinois.org"
        [fun s => s == "https://hackillinois.org"] = true ∧
     gatedSubscribe [fun s => s == "https://hackillinois.org"] []
        (some "https://hackillinois.org")
        ⟨some "testingList", some "a@hackillinois.org", []⟩
      = (.handled (.success 200 "Success"),
         [⟨"testingList", ["a@hackillinois.org"]⟩])) ∧
    gatedSubscribe [fun s => s == "https://hackillinois.org"] []
        (some "https://evil.example.com")
        ⟨some "testingList", some "a@hackillinois.org", []⟩
      = (.corsRejected "Not allowed by CORS", []) :=
  ⟨⟨rfl,
    (cors_gate_policy [fun s => s == "https://hackillinois.org"] []
        ⟨some "testingList", some "a@hackillinois.org", []⟩
        "https://hackillinois.org").2.2.1 rfl⟩,
   (cors_gate_policy [fun s => s == "https://hackillinois.org"] []
        ⟨some "testingList", some "a@hackillinois.org", []⟩
        "https://evil.example.com").2.2.2 (by decide) rfl⟩

/-- Claim C9: getModel joins the group tag and the collection tag with the
fixed separator to form the storage collection identifier; when the cache
already holds a handle for that identifier, that very handle is returned
and the cache is unchanged (idempotent registration); otherwise a new
handle is created from generateConfig — collection set to the identifier
and the automatic versionKey bookkeeping disabled — and cached. -/
theorem getModel_registration (cache : HandleCache) (group : Group)
    (collection : String) :
    ((getModel cache group collection).1.collectionId
        = group.tag ++ "_" ++ collection) ∧
    (∀ h, cache.find? (fun x => x.collectionId = group.tag ++ "_" ++ collection)
          = some h →
        getModel cache group collection = (h, cache)) ∧
    (cache.find? (fun x => x.collectionId = group.tag ++ "_" ++ collection)
          = none →
        getModel cache group collection
          = (⟨group.tag ++ "_" ++ collection,
              { collection := group.tag ++ "_" ++ collection, versionKey := false }⟩,
             cache ++ [⟨group.tag ++ "_" ++ collection,
              { collection := group.tag ++ "_" ++ collection, versionKey := false }⟩])) := by
  refine ⟨?_, ?_, ?_⟩
  · cases hfind : cache.find?
        (fun x => x.collectionId = group.tag ++ "_" ++ collection) with
    | none => simp [getModel, getModelForClass, generateConfig, hfind]
    | some h =>
        have hp := List.find?_some hfind
        simp at hp
        simp [getModel, getModelForClass, generateConfig, hfind, hp]
  · intro h hfind
    simp [getModel, getModelForClass, generateConfig, hfind]
  · intro hfind
    simp [getModel, getModelForClass, generateConfig, hfind]

/-- Witness for C9: registering the newsletter subscriptions model on an
empty cache creates the handle for identifier newsletter_subscriptions
with versionKey disabled; registering again on the resulting cache returns
the same handle with the cache unchanged. -/
theorem getModel_registration_witness :
    (getModel [] Group.NEWSLETTER "subscriptions")
        = (⟨"newsletter_subscriptions", ⟨"newsletter_subscriptions", false⟩⟩,
           [⟨"newsletter_subscriptions", ⟨"newsletter_subscriptions", false⟩⟩]) ∧
    getModel [⟨"newsletter_subscriptions", ⟨"newsletter_subscriptions", false⟩⟩]
        Group.NEWSLETTER "subscriptions"
      = (⟨"newsletter_subscriptions", ⟨"newsletter_subscriptions", false⟩⟩,
         [⟨"newsletter_subscriptions", ⟨"newsletter_subscriptions", false⟩⟩]) :=
  ⟨(getModel_registration [] Group.NEWSLETTER "subscriptions").2.2 rfl,
   (getModel_registration
      [⟨"newsletter_subscriptions", ⟨"newsletter_subscriptions", false⟩⟩]
      Group.NEWSLETTER "subscriptions").2.1
      ⟨"newsletter_subscriptions", ⟨"newsletter_subscriptions", false⟩⟩ rfl⟩

end Adonix
